import Mathlib

/-!
Shallow embedding of the step/sequence execution engine of
`src/roarm_v6.py` (the file all claims point at): the `StateResult`
outcome enum, the command dispatcher `RobotState._send_command`, the
step variants (`SimpleRobotState`, `DropoffSelectionState`,
`WaitForInputState`), the state registry `create_state_registry`,
sequence assembly `StateMachine.add_states_from_sequence`, and the
runner loop `StateMachine.run`.

Modelling conventions:
- Python floats (delays, joint values) are embedded as exact rationals;
  no claim depends on floating-point rounding, only on comparisons such
  as `delay > 0`.
- Network and console IO are embedded as explicit event inputs: an
  `HttpEvent` per HTTP request describes how `session.get` ended, a
  `UserInput` describes one `input()` call, and the runner consumes an
  oracle `Nat -> ExecResult` giving the result of the t-th
  `state.execute` call. Wall-clock sleeping is embedded as the number
  of seconds slept, returned alongside the result.
- The dynamic return type of `execute` in the source (a `StateResult`
  enum value or a plain string such as "REPEAT" or a dropoff key) is
  embedded as the tagged union `ExecResult`.
- Python list indexing `xs[i]` with an `int` (negative indices wrap,
  out-of-range raises IndexError) is embedded by `pyGet`, and
  `list.insert` by `pyInsert`; a raised-and-uncaught IndexError or
  KeyError ends the run in a dedicated `RunOutcome`.
- `make_t102_command` builds an f-string in the source; it is embedded
  as the structured record of the fields that the string interpolates,
  since no claim inspects the textual encoding.
-/

/-- Return values for state execution (`StateResult` in the source). -/
inductive StateResult
  | SUCCESS
  | FAILURE
  | ABORT
deriving DecidableEq, Repr

/-- What a `state.execute` call returns in the source: either a
`StateResult` member or a raw string (the "REPEAT" sentinel from
`WaitForInputState`, or a selected dropoff key from
`DropoffSelectionState`). -/
inductive ExecResult
  | res (r : StateResult)
  | str (s : String)
deriving DecidableEq, Repr

/-- How one `session.get(url, timeout=0.2)` call inside
`_send_command` ends: a completed request carrying a response text, a
`requests.exceptions.Timeout`, another `requests.exceptions.RequestException`,
or any other exception. -/
inductive HttpEvent
  | completed (text : String)
  | timeout
  | requestException
  | otherException
deriving DecidableEq, Repr

/-- One `input()` call: either a line of text, or
`KeyboardInterrupt` / `EOFError`. -/
inductive UserInput
  | line (s : String)
  | interrupted
deriving DecidableEq, Repr

/-- Python `s.lower().strip()` as applied to each `input()` line:
every character is lowercased, then whitespace is removed from both
ends. Written over the character list (all tokens involved are ASCII)
so that it evaluates by structural recursion. -/
def pyLowerStrip (s : String) : String :=
  ⟨((((s.data.map Char.toLower).dropWhile Char.isWhitespace).reverse.dropWhile
      Char.isWhitespace).reverse)⟩

/-- `RobotState._send_command` (roarm_v6.py lines 44-66). Given how the
HTTP request ends and the `delay` argument, returns the classified
`StateResult` together with the seconds slept before returning. In the
source the `time.sleep(delay)` sits inside the `try` block after
`session.get`, so it runs only when the request completed; every
exception path returns without sleeping. -/
def sendCommand (ev : HttpEvent) (delay : ℚ) : StateResult × ℚ :=
  match ev with
  | .completed _ => (.SUCCESS, if delay > 0 then delay else 0)
  | .timeout => (.SUCCESS, 0)
  | .requestException => (.FAILURE, 0)
  | .otherException => (.FAILURE, 0)

/-- The loop body of `SimpleRobotState.execute` (roarm_v6.py lines
81-86), started at sub-command index `j`: dispatches each remaining
`(command, delay)` pair via `_send_command` in order, stopping at the
first result that is not `SUCCESS`. `ev k` is how the HTTP request of
the k-th dispatched sub-command ends. Returns the final `StateResult`
and the indices of the sub-commands actually dispatched, in dispatch
order. -/
def simpleExecuteFrom (ev : Nat → HttpEvent) : Nat → List (String × ℚ) → StateResult × List Nat
  | _, [] => (.SUCCESS, [])
  | j, c :: rest =>
    let r := (sendCommand (ev j) c.2).1
    if r = .SUCCESS then
      let p := simpleExecuteFrom ev (j + 1) rest
      (p.1, j :: p.2)
    else
      (r, [j])

/-- `SimpleRobotState.execute` (roarm_v6.py lines 76-86). -/
def simpleExecute (commands : List (String × ℚ)) (ev : Nat → HttpEvent) : StateResult × List Nat :=
  simpleExecuteFrom ev 0 commands

/-- `DropoffSelectionState.execute` (roarm_v6.py lines 104-131). The
input line is normalised by `.lower().strip()`; the token "s" skips
(`SUCCESS`), "a" aborts, a key of `dropoff_map` is returned as the raw
string, anything else is `FAILURE`; `KeyboardInterrupt`/`EOFError`
abort. The second component is the list of command payloads sent to
the device: the method never calls `_send_command`, so it is empty. -/
def dropoffExecute (dropoffMap : List (String × String)) (inp : UserInput) :
    ExecResult × List String :=
  match inp with
  | .interrupted => (.res .ABORT, [])
  | .line s =>
    let u := pyLowerStrip s
    if u = "s" then (.res .SUCCESS, [])
    else if u = "a" then (.res .ABORT, [])
    else if (dropoffMap.lookup u).isSome then (.str u, [])
    else (.res .FAILURE, [])

/-- `WaitForInputState.execute` (roarm_v6.py lines 137-158): "s" skips
(`SUCCESS`), "r" returns the raw string "REPEAT", anything else
continues (`SUCCESS`); `KeyboardInterrupt`/`EOFError` abort. Sends no
command payload. -/
def waitExecute (inp : UserInput) : ExecResult × List String :=
  match inp with
  | .interrupted => (.res .ABORT, [])
  | .line s =>
    let u := pyLowerStrip s
    if u = "s" then (.res .SUCCESS, [])
    else if u = "r" then (.str "REPEAT", [])
    else (.res .SUCCESS, [])

/-- `RobotPose` (roarm_v6.py lines 16-24): a robot arm joint
configuration. Joint values are embedded as exact rationals. -/
structure RobotPose where
  base : ℚ
  shoulder : ℚ
  elbow : ℚ
  wrist : ℚ
  roll : ℚ
  hand : ℚ
deriving DecidableEq, Repr

/-- The information content of the T:102 command string produced by
`make_t102_command` (roarm_v6.py lines 27-31): the pose fields plus the
`spd` and `acc` scalars that the f-string interpolates. -/
structure T102Command where
  pose : RobotPose
  spd : ℤ
  acc : ℤ
deriving DecidableEq, Repr

/-- `make_t102_command(pose, spd, acc)` (roarm_v6.py lines 27-31); the
source defaults are `spd=0`, `acc=254`, passed explicitly here. -/
def make_t102_command (pose : RobotPose) (spd : ℤ) (acc : ℤ) : T102Command :=
  ⟨pose, spd, acc⟩

/-- The step variants of roarm_v6.py, as the payload data each class
instance carries: `SimpleRobotState` (including `PoseState`) carries a
name and its `(command, delay)` list, `WaitForInputState` a name,
`DropoffSelectionState` a name and its `dropoff_map`. -/
inductive StepV
  | simple (name : String) (commands : List (T102Command × ℚ))
  | wait (name : String)
  | select (name : String) (dropoffMap : List (String × String))
deriving DecidableEq, Repr

/-- `PoseState.__init__` (roarm_v6.py lines 92-94): builds the
command list from `(pose, delay)` pairs via
`make_t102_command(pose, acc=acc)` (so `spd = 0`); the source default
is `acc=255`, passed explicitly here. -/
def poseState (name : String) (poses : List (RobotPose × ℚ)) (acc : ℤ) : StepV :=
  .simple name (poses.map fun pd => (make_t102_command pd.1 0 acc, pd.2))

/-- `HOME_POSE` (roarm_v6.py line 162). -/
def HOME_POSE : RobotPose :=
  ⟨1.553922538, -0.113514578, 2.406815856, 0.905048665, -0.076699039, 2.664524629⟩

/-- `LEFT_PICKUP_POSES` (roarm_v6.py lines 164-169). -/
def LEFT_PICKUP_POSES : List (RobotPose × ℚ) :=
  [(⟨1.553922538, -0.113514578, 2.406815856, 0.905048665, -0.076699039, 2.664524629⟩, 0.42),
   (⟨1.279339977, 0.230097118, 2.58935957, 0.527689391, -0.216291563, 2.553320765⟩, 0.3),
   (⟨1.290077843, 0.176407791, 2.658388705, 0.40803889, -0.260776734, 3.183301384⟩, 0.15),
   (⟨1.412971055, -0.159534002, 2.370000317, 1.015495282, -0.234699332, 3.126252846⟩, 0.14)]

/-- `MIDDLE_DROPOFF_POSES` (roarm_v6.py lines 171-174). -/
def MIDDLE_DROPOFF_POSES : List (RobotPose × ℚ) :=
  [(⟨0.401902966, 0.110446617, 2.311709047, 0.852893318, -1.202640938, 3.046485845⟩, 0.55),
   (⟨0.348213639, 0.059825251, 2.126097372, 1.113670052, -1.225650921, 2.536621726⟩, 0.14)]

/-- `FRONT_DROPOFF_POSES` (roarm_v6.py lines 176-180). -/
def FRONT_DROPOFF_POSES : List (RobotPose × ℚ) :=
  [(⟨0.584776797, 0.335941793, 1.960427447, 1.11060209, -0.741864204, 3.051087787⟩, 0.62),
   (⟨0.584776797, 0.335941793, 1.960427447, 1.11060209, -0.741864204, 2.551087787⟩, 0.17),
   (⟨0.635689412, 0.141126232, 2.034058525, 1.086058398, -0.889708857, 2.758097457⟩, 0.27)]

/-- `BACK_DROPOFF_POSES` (roarm_v6.py lines 182-185). -/
def BACK_DROPOFF_POSES : List (RobotPose × ℚ) :=
  [(⟨-0.09817477, 0.018407769, 2.205922623, 1.063048686, -1.659767484, 3.224835364⟩, 0.95),
   (⟨-0.09817477, 0.018407769, 2.205922623, 1.063048686, -1.659767484, 2.536621726⟩, 0.175)]

/-- `PUSH_OFF_POSES` (roarm_v6.py lines 187-191). -/
def PUSH_OFF_POSES : List (RobotPose × ℚ) :=
  [(⟨0.931126338, 0.352815581, 1.684310905, 0.975029284, -0.878971263, 2.721650903⟩, 0.125),
   (⟨0.920388473, 0.415708794, 1.998776967, 0.65761176, -0.878971263, 3.121650903⟩, 0.23),
   (⟨-0.403436947, 0.181009733, 2.462039165, 0.559902988, -1.67165101, 3.118582942⟩, 0.5)]

/-- `PUSH_ON_HALF_POSES` (roarm_v6.py lines 193-196). -/
def PUSH_ON_HALF_POSES : List (RobotPose × ℚ) :=
  [(⟨-0.242368964, -0.073631078, 2.02485464, 1.283941919, -0.302194215, 3.118582942⟩, 0.01),
   (⟨0.862097203, 0.162601964, 1.681242944, 1.374446786, 0.776194279, 3.113980999⟩, 0.28)]

/-- `PUSH_ON_FULL_POSES` (roarm_v6.py lines 198-204). -/
def PUSH_ON_FULL_POSES : List (RobotPose × ℚ) :=
  [(⟨1.141281706, 0.794602048, 0.682621451, 1.529378846, 1.038504993, 3.106311095⟩, 1.6),
   (⟨1.224116669, 0.849825356, 0.957204012, 1.222582688, 1.199572976, 3.092505268⟩, 0.7),
   (⟨1.113670052, 0.656543777, 1.435806017, 1.135145783, 1.12900986, 3.112447019⟩, 0.2),
   (⟨0.882038953, 0.460194236, 1.94662162, 0.960271973, 0.983281685, 3.121650903⟩, 0.2),
   (⟨0.883572934, 0.274582561, 1.702718675, 1.288543862, 0.912718569, 3.113980999⟩, 0.35)]

/-- `BACK_PUSH_POSES` (roarm_v6.py lines 206-212). -/
def BACK_PUSH_POSES : List (RobotPose × ℚ) :=
  [(⟨1.141281706, 0.794602048, 0.682621451, 1.529378846, 1.038504993, 3.106311095⟩, 0.52),
   (⟨1.224116669, 0.849825356, 0.957204012, 1.222582688, 1.199572976, 3.092505268⟩, 0.15),
   (⟨1.113670052, 0.656543777, 1.435806017, 1.135145783, 1.12900986, 3.112447019⟩, 0.135),
   (⟨0.882038953, 0.460194236, 1.94662162, 0.960271973, 0.983281685, 3.121650903⟩, 0.1),
   (⟨0.883572934, 0.274582561, 1.702718675, 1.288543862, 0.912718569, 3.113980999⟩, 0.25)]

/-- `FAR_MIDDLE_POSES` (roarm_v6.py lines 214-217). -/
def FAR_MIDDLE_POSES : List (RobotPose × ℚ) :=
  [(⟨1.093728302, 0.608990373, 1.049242859, 1.500233211, -0.549165122, 3.117048961⟩, 2.5),
   (⟨1.093728302, 0.608990373, 1.049242859, 1.500233211, -0.549165122, 2.517048961⟩, 0.5)]

/-- The `dropoff_map` of the "SelectDropoff" registry entry
(roarm_v6.py lines 234-239). -/
def selectDropoffMap : List (String × String) :=
  [("1", "Middle Dropoff"),
   ("2", "Front Dropoff"),
   ("3", "Back Dropoff"),
   ("4", "Far Middle Dropoff")]

/-- `create_state_registry` (roarm_v6.py lines 220-240). Each source
entry is a zero-argument factory; calling a factory always produces a
step equal to the value recorded here, so the registry is embedded as
the association list from name to that step value. -/
def create_state_registry : List (String × StepV) :=
  [("Home", poseState "Home" [(HOME_POSE, 0.1)] 255),
   ("LeftPickup", poseState "Left Pickup" LEFT_PICKUP_POSES 255),
   ("MiddleDropoff", poseState "Middle Dropoff" MIDDLE_DROPOFF_POSES 255),
   ("FrontDropoff", poseState "Front Dropoff" FRONT_DROPOFF_POSES 255),
   ("BackDropoff", poseState "Back Dropoff" BACK_DROPOFF_POSES 255),
   ("PushOff", poseState "Push Off" PUSH_OFF_POSES 255),
   ("PushOnHalf", poseState "Push On" PUSH_ON_HALF_POSES 255),
   ("PushOnFull", poseState "Push On" PUSH_ON_FULL_POSES 255),
   ("BackPush", poseState "Back Push" BACK_PUSH_POSES 255),
   ("FarMiddle", poseState "Far Middle Dropoff" FAR_MIDDLE_POSES 255),
   ("Wait", .wait "Wait For Input"),
   ("SelectDropoff", .select "Select Dropoff" selectDropoffMap)]

/-- The `dropoff_mapping` from selection keys to registry state names,
local to `StateMachine.run` (roarm_v6.py lines 275-280). -/
def dropoff_mapping : List (String × String) :=
  [("1", "MiddleDropoff"),
   ("2", "FrontDropoff"),
   ("3", "BackDropoff"),
   ("4", "FarMiddle")]

/-- `StateMachine.add_states_from_sequence` (roarm_v6.py lines
257-264): resolves each name through the registry in order, appending
the instantiated step; an unknown name prints a warning and is
skipped. Returns the resolved steps in order together with the names
warned about, in order. -/
def add_states_from_sequence (registry : List (String × StepV)) :
    List String → List StepV × List String
  | [] => ([], [])
  | n :: rest =>
    let p := add_states_from_sequence registry rest
    match registry.lookup n with
    | some st => (st :: p.1, p.2)
    | none => (p.1, n :: p.2)

/-- Python list read `xs[d]` with an `int` index: a negative index in
`[-len, -1]` counts from the end, anything outside `[-len, len - 1]`
raises IndexError (`none` here). -/
def pyGet {α : Type} (xs : List α) (d : ℤ) : Option α :=
  if 0 ≤ d then xs.get? d.toNat
  else if -(xs.length : ℤ) ≤ d then xs.get? (d + xs.length).toNat
  else none

/-- Python `xs.insert(d, x)` with an `int` index: a negative index is
taken from the end and clamped to 0, an index beyond the end appends. -/
def pyInsert {α : Type} (xs : List α) (d : ℤ) (x : α) : List α :=
  if d < 0 then xs.insertIdx (max 0 ((xs.length : ℤ) + d)).toNat x
  else xs.insertIdx (min d.toNat xs.length) x

/-- The mutable state of the `while` loop in `StateMachine.run`: the
`self.states` list and the cursor `i` (a Python `int`, so it can go
negative). `α` is the step type; the runner only branches on execute
results, never on step contents. -/
structure Machine (α : Type) where
  states : List α
  i : ℤ
deriving DecidableEq, Repr

/-- How a `StateMachine.run` call ends: the states all completed, the
loop returned on ABORT or on the failure branch, an IndexError from
`self.states[i]` or a KeyError from `self.state_registry[name]`
escaped the loop (only KeyboardInterrupt is caught), or the modelling
fuel ran out before the run ended. -/
inductive RunOutcome
  | completed
  | aborted
  | failed
  | indexError
  | keyError
  | outOfFuel
deriving DecidableEq, Repr

/-- Everything observable about a (prefix of a) run: how it ended, the
`(cursor, step)` pair of every `state.execute` call in order, and the
machine state at every evaluation of the loop condition, in order. -/
structure RunResult (α : Type) where
  outcome : RunOutcome
  log : List (ℤ × α)
  visited : List (Machine α)
deriving Repr

/-- The dispatch on `result` in the loop body of `StateMachine.run`
(roarm_v6.py lines 289-306), in source order: `SUCCESS` advances,
the string "REPEAT" rewinds by two, a string that is a key of
`dropoff_mapping` instantiates the mapped registry entry, inserts it
at `i + 1` and advances, `ABORT` returns (aborted), anything else
returns (failed). Returns either the next loop state or the way the
run ends. -/
def applyResult {α : Type} (registry : String → Option α) (mapping : String → Option String)
    (m : Machine α) (r : ExecResult) : Machine α ⊕ RunOutcome :=
  match r with
  | .res .SUCCESS => .inl ⟨m.states, m.i + 1⟩
  | .str s =>
    if s = "REPEAT" then .inl ⟨m.states, m.i - 2⟩
    else
      match mapping s with
      | some name =>
        match registry name with
        | some st => .inl ⟨pyInsert m.states (m.i + 1) st, m.i + 1⟩
        | none => .inr .keyError
      | none => .inr .failed
  | .res .ABORT => .inr .aborted
  | .res .FAILURE => .inr .failed

/-- The `while i < len(self.states)` loop of `StateMachine.run`
(roarm_v6.py lines 283-306), with `fuel` bounding the number of
iterations and `t` counting `state.execute` calls so far; `ω t` is the
result of the t-th `state.execute` call (determined in the source by
operator input and transport events). -/
def runAux {α : Type} (registry : String → Option α) (mapping : String → Option String)
    (ω : Nat → ExecResult) : Nat → Nat → Machine α → RunResult α
  | 0, _, m => ⟨.outOfFuel, [], [m]⟩
  | fuel + 1, t, m =>
    if m.i < (m.states.length : ℤ) then
      match pyGet m.states m.i with
      | none => ⟨.indexError, [], [m]⟩
      | some st =>
        match applyResult registry mapping m (ω t) with
        | .inl m' =>
          let rest := runAux registry mapping ω fuel (t + 1) m'
          ⟨rest.outcome, (m.i, st) :: rest.log, m :: rest.visited⟩
        | .inr o => ⟨o, [(m.i, st)], [m]⟩
    else ⟨.completed, [], [m]⟩

/-- `StateMachine.run` on an assembled state list, starting at
`i = 0`. -/
def run {α : Type} (registry : String → Option α) (mapping : String → Option String)
    (ω : Nat → ExecResult) (fuel : Nat) (states : List α) : RunResult α :=
  runAux registry mapping ω fuel 0 ⟨states, 0⟩

/-! Helper lemmas shared by the claim theorems. -/

theorem simpleExecuteFrom_all_success (ev : Nat → HttpEvent) :
    ∀ (cmds : List (String × ℚ)) (j : Nat),
      (∀ k, k < cmds.length → ∀ d, (sendCommand (ev (j + k)) d).1 = .SUCCESS) →
      simpleExecuteFrom ev j cmds = (.SUCCESS, List.range' j cmds.length)
  | [], j, _ => by simp [simpleExecuteFrom]
  | c :: rest, j, h => by
    have h0 := h 0 (by simp) c.2
    simp only [Nat.add_zero] at h0
    have ih := simpleExecuteFrom_all_success ev rest (j + 1) (fun k hk d => by
      have hx := h (k + 1) (by simpa using Nat.succ_lt_succ hk) d
      rwa [show j + (k + 1) = j + 1 + k by omega] at hx)
    simp [simpleExecuteFrom, h0, ih, List.range'_succ]

theorem simpleExecuteFrom_first_failure (ev : Nat → HttpEvent) :
    ∀ (cmds : List (String × ℚ)) (j K : Nat), K < cmds.length →
      (∀ k, k < K → ∀ d, (sendCommand (ev (j + k)) d).1 = .SUCCESS) →
      (∀ d, (sendCommand (ev (j + K)) d).1 = .FAILURE) →
      simpleExecuteFrom ev j cmds = (.FAILURE, List.range' j (K + 1))
  | [], _, K, hK, _, _ => absurd hK (by simp)
  | c :: rest, j, 0, _, _, hF => by
    have h0 := hF c.2
    simp only [Nat.add_zero] at h0
    simp [simpleExecuteFrom, h0]
  | c :: rest, j, K + 1, hK, hS, hF => by
    have h0 := hS 0 (Nat.succ_pos K) c.2
    simp only [Nat.add_zero] at h0
    have ih := simpleExecuteFrom_first_failure ev rest (j + 1) K
      (by simpa using Nat.lt_of_succ_lt_succ hK)
      (fun k hk d => by
        have hx := hS (k + 1) (Nat.succ_lt_succ hk) d
        rwa [show j + (k + 1) = j + 1 + k by omega] at hx)
      (fun d => by
        have hx := hF d
        rwa [show j + (K + 1) = j + 1 + K by omega] at hx)
    simp [simpleExecuteFrom, h0, ih, List.range'_succ]

theorem pyInsert_length {α : Type} (xs : List α) (d : ℤ) (x : α) :
    (pyInsert xs d x).length = xs.length + 1 := by
  unfold pyInsert
  split
  · rw [List.length_insertIdx _ _ (by omega)]
  · rw [List.length_insertIdx _ _ (by omega)]

theorem pyInsert_nonneg {α : Type} (xs : List α) (d : ℤ) (x : α) (h0 : 0 ≤ d)
    (hd : d ≤ (xs.length : ℤ)) : pyInsert xs d x = xs.insertIdx d.toNat x := by
  unfold pyInsert
  rw [if_neg (by omega)]
  congr 1
  omega

theorem take_insertIdx_of_le {α : Type} (x : α) :
    ∀ (n : Nat) (l : List α), n ≤ l.length → (l.insertIdx n x).take n = l.take n
  | 0, _, _ => by simp
  | n + 1, [], h => by simp at h
  | n + 1, a :: l, h => by
    simp only [List.insertIdx_succ_cons, List.take_succ_cons]
    rw [take_insertIdx_of_le x n l (by simpa using h)]

theorem applyResult_length_mono {α : Type} {registry : String → Option α}
    {mapping : String → Option String} {m m' : Machine α} {r : ExecResult}
    (h : applyResult registry mapping m r = .inl m') :
    m.states.length ≤ m'.states.length := by
  cases r with
  | res sr =>
    cases sr with
    | SUCCESS => cases h; exact le_refl _
    | FAILURE => cases h
    | ABORT => cases h
  | str s =>
    by_cases hs : s = "REPEAT"
    · simp only [applyResult, if_pos hs] at h
      cases h; exact le_refl _
    · simp only [applyResult, if_neg hs] at h
      split at h
      · split at h
        · cases h
          simp [pyInsert_length]
        · cases h
      · cases h

theorem applyResult_bounds {α : Type} {registry : String → Option α}
    {mapping : String → Option String} {m m' : Machine α} {r : ExecResult}
    (hR : r ≠ .str "REPEAT") (h0 : 0 ≤ m.i) (hlt : m.i < (m.states.length : ℤ))
    (h : applyResult registry mapping m r = .inl m') :
    0 ≤ m'.i ∧ m'.i ≤ (m'.states.length : ℤ) := by
  cases r with
  | res sr =>
    cases sr with
    | SUCCESS => cases h; constructor <;> simp <;> omega
    | FAILURE => cases h
    | ABORT => cases h
  | str s =>
    have hs : s ≠ "REPEAT" := fun he => hR (by rw [he])
    simp only [applyResult, if_neg hs] at h
    split at h
    · split at h
      · cases h
        refine ⟨by simp; omega, ?_⟩
        simp only [pyInsert_length]
        push_cast
        omega
      · cases h
    · cases h

theorem runAux_cont {α : Type} (registry : String → Option α)
    (mapping : String → Option String) (ω : Nat → ExecResult) (fuel t : Nat)
    (m m' : Machine α) (st : α)
    (hlt : m.i < (m.states.length : ℤ)) (hget : pyGet m.states m.i = some st)
    (happ : applyResult registry mapping m (ω t) = .inl m') :
    runAux registry mapping ω (fuel + 1) t m =
      ⟨(runAux registry mapping ω fuel (t + 1) m').outcome,
       (m.i, st) :: (runAux registry mapping ω fuel (t + 1) m').log,
       m :: (runAux registry mapping ω fuel (t + 1) m').visited⟩ := by
  rw [runAux, if_pos hlt, hget, happ]

theorem runAux_stop {α : Type} (registry : String → Option α)
    (mapping : String → Option String) (ω : Nat → ExecResult) (fuel t : Nat)
    (m : Machine α) (st : α) (o : RunOutcome)
    (hlt : m.i < (m.states.length : ℤ)) (hget : pyGet m.states m.i = some st)
    (happ : applyResult registry mapping m (ω t) = .inr o) :
    runAux registry mapping ω (fuel + 1) t m = ⟨o, [(m.i, st)], [m]⟩ := by
  rw [runAux, if_pos hlt, hget, happ]

theorem runAux_idxerr {α : Type} (registry : String → Option α)
    (mapping : String → Option String) (ω : Nat → ExecResult) (fuel t : Nat)
    (m : Machine α)
    (hlt : m.i < (m.states.length : ℤ)) (hget : pyGet m.states m.i = none) :
    runAux registry mapping ω (fuel + 1) t m = ⟨.indexError, [], [m]⟩ := by
  rw [runAux, if_pos hlt, hget]

theorem runAux_log_head {α : Type} (registry : String → Option α)
    (mapping : String → Option String) (ω : Nat → ExecResult) (fuel t : Nat)
    (m : Machine α) (hlt : m.i < (m.states.length : ℤ)) :
    (runAux registry mapping ω (fuel + 1) t m).log.head?
      = (pyGet m.states m.i).map fun s => (m.i, s) := by
  cases hget : pyGet m.states m.i with
  | none => rw [runAux_idxerr registry mapping ω fuel t m hlt hget]; rfl
  | some st =>
    cases happ : applyResult registry mapping m (ω t) with
    | inl m₁ => rw [runAux_cont registry mapping ω fuel t m m₁ st hlt hget happ]; rfl
    | inr o => rw [runAux_stop registry mapping ω fuel t m st o hlt hget happ]; rfl

theorem runAux_visited_length_mono {α : Type} (registry : String → Option α)
    (mapping : String → Option String) (ω : Nat → ExecResult) :
    ∀ (fuel t : Nat) (m m' : Machine α),
      m' ∈ (runAux registry mapping ω fuel t m).visited →
      m.states.length ≤ m'.states.length
  | 0, t, m, m', h => by
    simp only [runAux, List.mem_singleton] at h
    subst h; exact le_refl _
  | fuel + 1, t, m, m', h => by
    by_cases hlt : m.i < (m.states.length : ℤ)
    · cases hget : pyGet m.states m.i with
      | none =>
        rw [runAux_idxerr registry mapping ω fuel t m hlt hget] at h
        simp only [List.mem_singleton] at h
        subst h; exact le_refl _
      | some st =>
        cases happ : applyResult registry mapping m (ω t) with
        | inl m₁ =>
          rw [runAux_cont registry mapping ω fuel t m m₁ st hlt hget happ] at h
          simp only [List.mem_cons] at h
          rcases h with h | h
          · subst h; exact le_refl _
          · exact le_trans (applyResult_length_mono happ)
              (runAux_visited_length_mono registry mapping ω fuel (t + 1) m₁ m' h)
        | inr o =>
          rw [runAux_stop registry mapping ω fuel t m st o hlt hget happ] at h
          simp only [List.mem_singleton] at h
          subst h; exact le_refl _
    · rw [runAux, if_neg hlt] at h
      simp only [List.mem_singleton] at h
      subst h; exact le_refl _

theorem runAux_visited_bounds {α : Type} (registry : String → Option α)
    (mapping : String → Option String) (ω : Nat → ExecResult)
    (hω : ∀ u, ω u ≠ .str "REPEAT") :
    ∀ (fuel t : Nat) (m m' : Machine α), 0 ≤ m.i → m.i ≤ (m.states.length : ℤ) →
      m' ∈ (runAux registry mapping ω fuel t m).visited →
      0 ≤ m'.i ∧ m'.i ≤ (m'.states.length : ℤ)
  | 0, t, m, m', h0, hle, h => by
    simp only [runAux, List.mem_singleton] at h
    subst h; exact ⟨h0, hle⟩
  | fuel + 1, t, m, m', h0, hle, h => by
    by_cases hlt : m.i < (m.states.length : ℤ)
    · cases hget : pyGet m.states m.i with
      | none =>
        rw [runAux_idxerr registry mapping ω fuel t m hlt hget] at h
        simp only [List.mem_singleton] at h
        subst h; exact ⟨h0, hle⟩
      | some st =>
        cases happ : applyResult registry mapping m (ω t) with
        | inl m₁ =>
          rw [runAux_cont registry mapping ω fuel t m m₁ st hlt hget happ] at h
          simp only [List.mem_cons] at h
          rcases h with h | h
          · subst h; exact ⟨h0, hle⟩
          · have hb := applyResult_bounds (hω t) h0 hlt happ
            exact runAux_visited_bounds registry mapping ω hω fuel (t + 1) m₁ m'
              hb.1 hb.2 h
        | inr o =>
          rw [runAux_stop registry mapping ω fuel t m st o hlt hget happ] at h
          simp only [List.mem_singleton] at h
          subst h; exact ⟨h0, hle⟩
    · rw [runAux, if_neg hlt] at h
      simp only [List.mem_singleton] at h
      subst h; exact ⟨h0, hle⟩

/-! The claim theorems. -/

/-- C4: for a `SimpleRobotState` with N sub-commands, if every
dispatch classifies as `SUCCESS` then all N sub-commands are
dispatched exactly once in list order (indices `0..N-1` in order) and
the step returns `SUCCESS`; if the dispatch at index K (0-based, so
the (K+1)-th in the 1-indexed counting of the claim) is the first to
classify as `FAILURE`, exactly the sub-commands at indices `0..K` are
dispatched, the later ones never, and the step returns `FAILURE`. -/
theorem C4_fixedstep_dispatch (commands : List (String × ℚ)) (ev : Nat → HttpEvent) :
    ((∀ k, k < commands.length → ∀ d, (sendCommand (ev k) d).1 = .SUCCESS) →
      simpleExecute commands ev = (.SUCCESS, List.range commands.length))
  ∧ (∀ K, K < commands.length →
      (∀ k, k < K → ∀ d, (sendCommand (ev k) d).1 = .SUCCESS) →
      (∀ d, (sendCommand (ev K) d).1 = .FAILURE) →
      simpleExecute commands ev = (.FAILURE, List.range (K + 1))) := by
  constructor
  · intro h
    have := simpleExecuteFrom_all_success ev commands 0 (fun k hk d => by
      simpa using h k hk d)
    simpa [simpleExecute, List.range_eq_range']
  · intro K hK hS hF
    have := simpleExecuteFrom_first_failure ev commands 0 K hK
      (fun k hk d => by simpa using hS k hk d) (fun d => by simpa using hF d)
    simpa [simpleExecute, List.range_eq_range']

/-- C4 witness: on a three-sub-command step whose second dispatch hits
a `RequestException`, exactly sub-commands 0 and 1 are dispatched and
the step fails; on the all-success transport all three run in order. -/
theorem C4_fixedstep_dispatch_witness :
    simpleExecute [("a", 0), ("b", 0), ("c", 0)]
        (fun j => if j = 1 then .requestException else .completed "ok") = (.FAILURE, [0, 1])
  ∧ simpleExecute [("a", 0), ("b", 0), ("c", 0)] (fun _ => .completed "ok")
      = (.SUCCESS, [0, 1, 2]) := by
  constructor
  · have := (C4_fixedstep_dispatch [("a", 0), ("b", 0), ("c", 0)]
      (fun j => if j = 1 then .requestException else .completed "ok")).2 1 (by decide)
      (fun k hk d => by interval_cases k; rfl) (fun d => rfl)
    simpa using this
  · have := (C4_fixedstep_dispatch [("a", 0), ("b", 0), ("c", 0)]
      (fun _ => .completed "ok")).1 (fun k _ d => rfl)
    simpa using this

/-- C5: `_send_command` classification: a completed request (any
response) is `SUCCESS`; a request timeout is `SUCCESS` as well and the
returned status is literally the same value a completed request
returns, so callers cannot distinguish the two from the result; any
other transport-level fault is `FAILURE`. -/
theorem C5_dispatcher_classification (text : String) (delay : ℚ) :
    (sendCommand (.completed text) delay).1 = .SUCCESS
  ∧ (sendCommand .timeout delay).1 = .SUCCESS
  ∧ (sendCommand .timeout delay).1 = (sendCommand (.completed text) delay).1
  ∧ (sendCommand .requestException delay).1 = .FAILURE
  ∧ (sendCommand .otherException delay).1 = .FAILURE :=
  ⟨rfl, rfl, rfl, rfl, rfl⟩

/-- C6 counterexample: with `delay = 1 > 0`, a benign timeout is
classified `SUCCESS` but the caller is blocked for 0 seconds, not for
the `postDelay` of 1 second the claim asserts: the `time.sleep` sits
inside the `try` block, after the request, so the timeout path skips
it. -/
theorem C6_counterexample :
    (sendCommand .timeout 1).1 = .SUCCESS ∧ (sendCommand .timeout 1).2 = 0
      ∧ (0 : ℚ) ≠ 1 :=
  ⟨rfl, rfl, by norm_num⟩

/-- C6 amended: after a completed request with `delay > 0` the caller
is blocked for `delay` seconds before the call returns; a benign
timeout returns without any wait; a `delay` of zero performs no wait
on any path. -/
theorem C6_postdelay (text : String) (ev : HttpEvent) (delay : ℚ) :
    (0 < delay → (sendCommand (.completed text) delay).2 = delay)
  ∧ (sendCommand .timeout delay).2 = 0
  ∧ (sendCommand ev 0).2 = 0 := by
  refine ⟨fun h => by simp [sendCommand, h], rfl, ?_⟩
  cases ev <;> simp [sendCommand]

/-- C6 witness: with `delay = 1` a completed request waits 1 second,
a timeout waits 0 seconds; `delay = 0` waits 0 seconds. -/
theorem C6_postdelay_witness :
    (sendCommand (.completed "ok") 1).2 = 1
  ∧ (sendCommand .timeout 1).2 = 0
  ∧ (sendCommand .timeout 0).2 = 0 :=
  ⟨(C6_postdelay "ok" .timeout 1).1 (by norm_num),
   (C6_postdelay "ok" .timeout 1).2.1,
   (C6_postdelay "ok" .timeout 0).2.2⟩

/-- C7: `DropoffSelectionState.execute` maps the normalised input
token: the skip token "s" to `SUCCESS`, the abort token "a" to
`ABORT`, a key of `dropoff_map` to that key returned as the raw
selection string, anything else to `FAILURE`; end-of-input or an
interrupt to `ABORT`; on every path the list of command payloads sent
to the device is empty. -/
theorem C7_select_outcomes (dropoffMap : List (String × String)) (s : String) :
    dropoffExecute dropoffMap .interrupted = (.res .ABORT, [])
  ∧ (pyLowerStrip s = "s" → dropoffExecute dropoffMap (.line s) = (.res .SUCCESS, []))
  ∧ (pyLowerStrip s = "a" → dropoffExecute dropoffMap (.line s) = (.res .ABORT, []))
  ∧ (pyLowerStrip s ≠ "s" → pyLowerStrip s ≠ "a" →
      (dropoffMap.lookup (pyLowerStrip s)).isSome = true →
      dropoffExecute dropoffMap (.line s) = (.str (pyLowerStrip s), []))
  ∧ (pyLowerStrip s ≠ "s" → pyLowerStrip s ≠ "a" →
      (dropoffMap.lookup (pyLowerStrip s)).isSome = false →
      dropoffExecute dropoffMap (.line s) = (.res .FAILURE, [])) := by
  refine ⟨rfl, fun h => by simp [dropoffExecute, h], fun h => by simp [dropoffExecute, h],
    fun h1 h2 h3 => by simp [dropoffExecute, h1, h2, h3],
    fun h1 h2 h3 => by simp [dropoffExecute, h1, h2, h3]⟩

/-- C7 witness: on the built-in dropoff map, the key "1" comes back as
the selection string "1", the skip token gives `SUCCESS`, junk input
gives `FAILURE`, and an interrupt gives `ABORT`. -/
theorem C7_select_outcomes_witness :
    dropoffExecute selectDropoffMap (.line "1") = (.str "1", [])
  ∧ dropoffExecute selectDropoffMap (.line "s") = (.res .SUCCESS, [])
  ∧ dropoffExecute selectDropoffMap (.line "x") = (.res .FAILURE, [])
  ∧ dropoffExecute selectDropoffMap .interrupted = (.res .ABORT, []) :=
  ⟨(C7_select_outcomes selectDropoffMap "1").2.2.2.1 (by decide) (by decide) (by decide),
   (C7_select_outcomes selectDropoffMap "s").2.1 (by decide),
   (C7_select_outcomes selectDropoffMap "x").2.2.2.2 (by decide) (by decide) (by decide),
   (C7_select_outcomes selectDropoffMap "q").1⟩

/-- C8: `add_states_from_sequence` resolves exactly the names present
in the registry, in order, into the registry values (the steps the
factories build), and reports exactly the absent names; it is total,
so an unknown name is never fatal. -/
theorem C8_unknown_names (registry : List (String × StepV)) (names : List String) :
    (add_states_from_sequence registry names).1
        = names.filterMap (fun n => registry.lookup n)
  ∧ (add_states_from_sequence registry names).2
        = names.filter (fun n => (registry.lookup n).isNone) := by
  induction names with
  | nil => exact ⟨rfl, rfl⟩
  | cons n rest ih =>
    cases h : registry.lookup n <;>
      simp [add_states_from_sequence, h, ih.1, ih.2]

/-- C1 counterexample: on the three-step sequence `[10, 20, 30]` where
the execution at cursor 2 returns "REPEAT" and every other execution
succeeds, the step executed right after the rewind is the one at index
0 (entry `(0, 10)` in the execution log), not the step previously at
cursor `i - 1 = 1` (which would be `(1, 20)`); and on a two-step
sequence where every execution returns "REPEAT", the run terminates
with an uncaught IndexError (it does not run forever: `outOfFuel` is
the non-termination marker and the outcome differs from it). -/
theorem C1_counterexample :
    (run (fun _ => (none : Option Nat)) (fun _ => none)
        (fun u => if u = 2 then .str "REPEAT" else .res .SUCCESS) 8 [10, 20, 30]).log
      = [(0, 10), (1, 20), (2, 30), (0, 10), (1, 20), (2, 30)]
  ∧ ((0 : ℤ), (10 : Nat)) ≠ ((1 : ℤ), (20 : Nat))
  ∧ (run (fun _ => (none : Option Nat)) (fun _ => none)
        (fun _ => .str "REPEAT") 9 [10, 20]).outcome = .indexError
  ∧ RunOutcome.indexError ≠ RunOutcome.outOfFuel := by
  exact ⟨by decide, by decide, by decide, by decide⟩

/-- C1 amended: when the execution at cursor `i` returns "REPEAT", the
cursor becomes `i - 2` over the unchanged state list, and the run
continues from there, so the next step executed (recorded first in the
continuation log) is the one fetched at index `i - 2` under Python
indexing, not the step at `i - 1`; on a two-step sequence two
consecutive "REPEAT" results terminate the run with an uncaught
IndexError. -/
theorem C1_repeat_rewind (α : Type) (registry : String → Option α)
    (mapping : String → Option String) (ω : Nat → ExecResult) :
    (∀ (fuel t : Nat) (m : Machine α) (st : α), ω t = .str "REPEAT" →
      m.i < (m.states.length : ℤ) → pyGet m.states m.i = some st →
      runAux registry mapping ω (fuel + 1) t m =
        ⟨(runAux registry mapping ω fuel (t + 1) ⟨m.states, m.i - 2⟩).outcome,
         (m.i, st) :: (runAux registry mapping ω fuel (t + 1) ⟨m.states, m.i - 2⟩).log,
         m :: (runAux registry mapping ω fuel (t + 1) ⟨m.states, m.i - 2⟩).visited⟩)
  ∧ (∀ (fuel t : Nat) (m : Machine α), m.i < (m.states.length : ℤ) →
      (runAux registry mapping ω (fuel + 1) t m).log.head?
        = (pyGet m.states m.i).map fun s => (m.i, s))
  ∧ (∀ (a b : α) (fuel t : Nat),
      (runAux registry mapping (fun _ => .str "REPEAT") (fuel + 3) t
        ⟨[a, b], 0⟩).outcome = .indexError) := by
  refine ⟨?_, ?_, ?_⟩
  · intro fuel t m st hω hlt hget
    have happ : applyResult registry mapping m (ω t) = .inl ⟨m.states, m.i - 2⟩ := by
      rw [hω]; rfl
    exact runAux_cont registry mapping ω fuel t m ⟨m.states, m.i - 2⟩ st hlt hget happ
  · intro fuel t m hlt
    exact runAux_log_head registry mapping ω fuel t m hlt
  · intro a b fuel t
    rw [show fuel + 3 = (fuel + 2) + 1 from rfl,
      runAux_cont registry mapping (fun _ => .str "REPEAT") (fuel + 2) t
        ⟨[a, b], 0⟩ ⟨[a, b], -2⟩ a (by simp) (by norm_num [pyGet])
        (by norm_num [applyResult])]
    rw [show fuel + 2 = (fuel + 1) + 1 from rfl]
    dsimp only
    rw [runAux_cont registry mapping (fun _ => .str "REPEAT") (fuel + 1) (t + 1)
        ⟨[a, b], -2⟩ ⟨[a, b], -4⟩ a (by simp) (by norm_num [pyGet])
        (by norm_num [applyResult])]
    dsimp only
    rw [runAux_idxerr registry mapping (fun _ => .str "REPEAT") fuel (t + 2)
        ⟨[a, b], -4⟩ (by simp) (by norm_num [pyGet])]

/-- C1 witness: the rewind equation applied to the two-step machine
`[10, 20]` at cursor 1 whose execution returns "REPEAT", and the
two-consecutive-REPEAT crash applied at fuel 3. -/
theorem C1_repeat_rewind_witness :
    runAux (fun _ => (none : Option Nat)) (fun _ => none) (fun _ => .str "REPEAT")
        (2 + 1) 0 ⟨[10, 20], 1⟩ =
      ⟨(runAux (fun _ => (none : Option Nat)) (fun _ => none) (fun _ => .str "REPEAT")
          2 1 ⟨[10, 20], -1⟩).outcome,
       ((1 : ℤ), (20 : Nat)) :: (runAux (fun _ => (none : Option Nat)) (fun _ => none)
          (fun _ => .str "REPEAT") 2 1 ⟨[10, 20], -1⟩).log,
       ⟨[10, 20], 1⟩ :: (runAux (fun _ => (none : Option Nat)) (fun _ => none)
          (fun _ => .str "REPEAT") 2 1 ⟨[10, 20], -1⟩).visited⟩
  ∧ (runAux (fun _ => (none : Option Nat)) (fun _ => none) (fun _ => .str "REPEAT")
        (0 + 3) 0 ⟨[10, 20], 0⟩).outcome = .indexError :=
  ⟨(C1_repeat_rewind Nat (fun _ => none) (fun _ => none) (fun _ => .str "REPEAT")).1
      2 0 ⟨[10, 20], 1⟩ 20 (by decide) (by decide) (by decide),
   (C1_repeat_rewind Nat (fun _ => none) (fun _ => none) (fun _ => .str "REPEAT")).2.2
      10 20 0 0⟩

/-- C2: when the execution at a cursor `i` with `0 ≤ i < len` returns
a selection key `k` (not "REPEAT") that the branch mapping resolves to
a registered state, the run continues with exactly that state value
inserted at position `i + 1` and the cursor advanced to `i + 1`; the
new list is one longer, its first `i + 1` entries (the steps at
positions up to `i`) are unchanged, and the step fetched at the new
cursor is the freshly injected one — so the injecting step is not
re-executed and the injected step has not executed at the moment of
injection. -/
theorem C2_selectkey_injection (α : Type) (registry : String → Option α)
    (mapping : String → Option String) (ω : Nat → ExecResult)
    (fuel t : Nat) (m : Machine α) (st newSt : α) (k name : String)
    (h0 : 0 ≤ m.i) (hlt : m.i < (m.states.length : ℤ))
    (hget : pyGet m.states m.i = some st)
    (hω : ω t = .str k) (hk : k ≠ "REPEAT")
    (hmap : mapping k = some name) (hreg : registry name = some newSt) :
    runAux registry mapping ω (fuel + 1) t m =
      ⟨(runAux registry mapping ω fuel (t + 1)
          ⟨m.states.insertIdx (m.i.toNat + 1) newSt, m.i + 1⟩).outcome,
       (m.i, st) :: (runAux registry mapping ω fuel (t + 1)
          ⟨m.states.insertIdx (m.i.toNat + 1) newSt, m.i + 1⟩).log,
       m :: (runAux registry mapping ω fuel (t + 1)
          ⟨m.states.insertIdx (m.i.toNat + 1) newSt, m.i + 1⟩).visited⟩
  ∧ (m.states.insertIdx (m.i.toNat + 1) newSt).length = m.states.length + 1
  ∧ (m.states.insertIdx (m.i.toNat + 1) newSt).take (m.i.toNat + 1)
      = m.states.take (m.i.toNat + 1)
  ∧ pyGet (m.states.insertIdx (m.i.toNat + 1) newSt) (m.i + 1) = some newSt := by
  have hlen : m.i.toNat + 1 ≤ m.states.length := by omega
  have hpy : pyInsert m.states (m.i + 1) newSt
      = m.states.insertIdx (m.i.toNat + 1) newSt := by
    rw [pyInsert_nonneg m.states (m.i + 1) newSt (by omega) (by omega)]
    congr 1
    omega
  refine ⟨?_, ?_, ?_, ?_⟩
  · have happ : applyResult registry mapping m (ω t)
        = .inl ⟨m.states.insertIdx (m.i.toNat + 1) newSt, m.i + 1⟩ := by
      rw [hω]
      simp only [applyResult, if_neg hk, hmap, hreg, hpy]
    exact runAux_cont registry mapping ω fuel t m _ st hlt hget happ
  · exact List.length_insertIdx _ _ hlen
  · exact take_insertIdx_of_le newSt (m.i.toNat + 1) m.states hlen
  · unfold pyGet
    rw [if_pos (by omega), show (m.i + 1).toNat = m.i.toNat + 1 by omega,
      List.get?_eq_getElem?, List.getElem?_eq_getElem
        (by rw [List.length_insertIdx _ _ hlen]; omega),
      List.getElem_insertIdx_self m.states newSt (m.i.toNat + 1) hlen]

/-- C2 witness: injecting into `[10, 20]` at cursor 0 via key "1"
mapped to registry entry "A" holding step 99: the run continues on
`[10, 99, 20]` at cursor 1, the length grew by one, position 0 is
unchanged, and the step at the new cursor is the injected 99. -/
theorem C2_selectkey_injection_witness :
    runAux (fun n => if n = "A" then some (99 : Nat) else none)
        (fun k => if k = "1" then some "A" else none)
        (fun u => if u = 0 then .str "1" else .res .SUCCESS) (5 + 1) 0 ⟨[10, 20], 0⟩ =
      ⟨(runAux (fun n => if n = "A" then some (99 : Nat) else none)
          (fun k => if k = "1" then some "A" else none)
          (fun u => if u = 0 then .str "1" else .res .SUCCESS) 5 1
          ⟨([10, 20] : List Nat).insertIdx 1 99, 1⟩).outcome,
       ((0 : ℤ), (10 : Nat)) :: (runAux (fun n => if n = "A" then some (99 : Nat) else none)
          (fun k => if k = "1" then some "A" else none)
          (fun u => if u = 0 then .str "1" else .res .SUCCESS) 5 1
          ⟨([10, 20] : List Nat).insertIdx 1 99, 1⟩).log,
       ⟨[10, 20], 0⟩ :: (runAux (fun n => if n = "A" then some (99 : Nat) else none)
          (fun k => if k = "1" then some "A" else none)
          (fun u => if u = 0 then .str "1" else .res .SUCCESS) 5 1
          ⟨([10, 20] : List Nat).insertIdx 1 99, 1⟩).visited⟩
  ∧ (([10, 20] : List Nat).insertIdx 1 99).length = 3
  ∧ (([10, 20] : List Nat).insertIdx 1 99).take 1 = [10]
  ∧ pyGet (([10, 20] : List Nat).insertIdx 1 99) 1 = some 99 := by
  have h := C2_selectkey_injection Nat (fun n => if n = "A" then some 99 else none)
    (fun k => if k = "1" then some "A" else none)
    (fun u => if u = 0 then .str "1" else .res .SUCCESS) 5 0 ⟨[10, 20], 0⟩ 10 99 "1" "A"
    (by decide) (by decide) (by decide) (by decide) (by decide) (by decide) (by decide)
  exact ⟨h.1, h.2.1, h.2.2.1, h.2.2.2⟩

/-- C3 counterexample: on the one-step sequence `[0]` whose execution
returns "REPEAT", the loop state with cursor `-2` is reached (it is in
the visited list of the run), and `-2` is outside `[0, length]`; so
the cursor invariant of the claim does not hold of every reachable
loop state. -/
theorem C3_counterexample :
    (⟨[0], -2⟩ : Machine Nat) ∈ (runAux (fun _ => (none : Option Nat)) (fun _ => none)
        (fun _ => .str "REPEAT") 3 0 ⟨[(0 : Nat)], 0⟩).visited
  ∧ ¬(0 ≤ (-2 : ℤ)) := by
  exact ⟨by decide, by decide⟩

/-- C3 amended: along every run the length of the state list never
decreases (insertion is the only mutation); and provided no execution
returns "REPEAT", every reachable loop state keeps its cursor in
`[0, length]`. A "REPEAT" outcome at cursor 0 or 1 can drive the
cursor negative (see the C3 counterexample and C9). -/
theorem C3_cursor_length (α : Type) (registry : String → Option α)
    (mapping : String → Option String) (ω : Nat → ExecResult)
    (fuel t : Nat) (m : Machine α) :
    (∀ m' ∈ (runAux registry mapping ω fuel t m).visited,
        m.states.length ≤ m'.states.length)
  ∧ ((∀ u, ω u ≠ .str "REPEAT") → 0 ≤ m.i → m.i ≤ (m.states.length : ℤ) →
      ∀ m' ∈ (runAux registry mapping ω fuel t m).visited,
        0 ≤ m'.i ∧ m'.i ≤ (m'.states.length : ℤ)) :=
  ⟨fun m' h => runAux_visited_length_mono registry mapping ω fuel t m m' h,
   fun hω h0 hle m' h => runAux_visited_bounds registry mapping ω hω fuel t m m' h0 hle h⟩

/-- C3 witness: in the no-REPEAT run over `[7, 8]` with an injecting
oracle replaced by plain successes, the reachable loop state at cursor
2 satisfies both the length bound and the cursor bounds. -/
theorem C3_cursor_length_witness :
    ([7, 8] : List Nat).length ≤ (Machine.mk ([7, 8] : List Nat) 2).states.length
  ∧ (0 ≤ (Machine.mk ([7, 8] : List Nat) 2).i
      ∧ (Machine.mk ([7, 8] : List Nat) 2).i
          ≤ ((Machine.mk ([7, 8] : List Nat) 2).states.length : ℤ)) :=
  ⟨(C3_cursor_length Nat (fun _ => none) (fun _ => none) (fun _ => .res .SUCCESS)
      5 0 ⟨[7, 8], 0⟩).1 ⟨[7, 8], 2⟩ (by decide),
   (C3_cursor_length Nat (fun _ => none) (fun _ => none) (fun _ => .res .SUCCESS)
      5 0 ⟨[7, 8], 0⟩).2 (fun u => by decide) (by decide) (by decide)
      ⟨[7, 8], 2⟩ (by decide)⟩

/-- C9: when the loop reaches a negative cursor `n`, if
`-length ≤ n` the fetch `self.states[n]` succeeds and yields the
element at index `length + n` — the runner executes that step next
(first entry of the log) rather than clamping to 0 or stopping; if
`n < -length` the fetch raises IndexError and the run ends in the
uncaught-IndexError outcome, not in completed, aborted or failed. -/
theorem C9_negative_cursor (α : Type) (registry : String → Option α)
    (mapping : String → Option String) (ω : Nat → ExecResult) :
    (∀ (fuel t : Nat) (m : Machine α), m.i < 0 → -(m.states.length : ℤ) ≤ m.i →
        pyGet m.states m.i = m.states.get? ((m.states.length : ℤ) + m.i).toNat
      ∧ (pyGet m.states m.i).isSome = true
      ∧ (runAux registry mapping ω (fuel + 1) t m).log.head?
          = (pyGet m.states m.i).map fun s => (m.i, s))
  ∧ (∀ (fuel t : Nat) (m : Machine α), m.i < -(m.states.length : ℤ) →
      (runAux registry mapping ω (fuel + 1) t m).outcome = .indexError) := by
  constructor
  · intro fuel t m hneg hge
    have hget : pyGet m.states m.i
        = m.states.get? ((m.states.length : ℤ) + m.i).toNat := by
      unfold pyGet
      rw [if_neg (by omega), if_pos hge,
        show (m.i + (m.states.length : ℤ)).toNat
          = ((m.states.length : ℤ) + m.i).toNat by omega]
    refine ⟨hget, ?_, ?_⟩
    · rw [hget, List.get?_eq_getElem?]
      rw [List.getElem?_eq_getElem (by omega)]
      rfl
    · exact runAux_log_head registry mapping ω fuel t m (by omega)
  · intro fuel t m hlt
    have hget : pyGet m.states m.i = none := by
      unfold pyGet
      rw [if_neg (by omega), if_neg (by omega)]
    exact congrArg RunResult.outcome
      (runAux_idxerr registry mapping ω fuel t m (by omega) hget)

/-- C9 witness: at cursor `-1` over `[5, 6]` the fetched step is the
one at index `2 + (-1) = 1` (the value 6) and it is executed next; at
cursor `-3` over `[5, 6]` the run ends with an IndexError. -/
theorem C9_negative_cursor_witness :
    (pyGet ([5, 6] : List Nat) (-1) = ([5, 6] : List Nat).get? 1
      ∧ (pyGet ([5, 6] : List Nat) (-1)).isSome = true
      ∧ (runAux (fun _ => (none : Option Nat)) (fun _ => none) (fun _ => .res .SUCCESS)
          (2 + 1) 0 ⟨[5, 6], -1⟩).log.head?
          = (pyGet ([5, 6] : List Nat) (-1)).map fun s => ((-1 : ℤ), s))
  ∧ (runAux (fun _ => (none : Option Nat)) (fun _ => none) (fun _ => .res .SUCCESS)
      (2 + 1) 0 ⟨[5, 6], -3⟩).outcome = .indexError := by
  have h := C9_negative_cursor Nat (fun _ => none) (fun _ => none) (fun _ => .res .SUCCESS)
  have ha := h.1 2 0 ⟨[5, 6], -1⟩ (by decide) (by decide)
  exact ⟨⟨ha.1, ha.2.1, ha.2.2⟩, h.2 2 0 ⟨[5, 6], -3⟩ (by decide)⟩

/-- C10: the built-in `SelectDropoff` registry entry carries exactly
the keys "1", "2", "3", "4", and every one of them is a key of the
`dropoff_mapping` of `StateMachine.run` whose mapped state name is a
key of `create_state_registry`, so a selection outcome always resolves
to a registered factory and injection never raises a KeyError. -/
theorem C10_dropoff_keys_registered :
    create_state_registry.lookup "SelectDropoff"
        = some (.select "Select Dropoff" selectDropoffMap)
  ∧ selectDropoffMap.map Prod.fst = ["1", "2", "3", "4"]
  ∧ (selectDropoffMap.map Prod.fst).all
      (fun k => (dropoff_mapping.lookup k).isSome &&
        ((dropoff_mapping.lookup k).bind
          fun nm => create_state_registry.lookup nm).isSome) = true :=
  ⟨rfl, rfl, rfl⟩
